import Mathlib

/-!
Shallow embedding of the Standings & Schedule-Strength Engine of
`app.py` (NFL draft order simulator).

The embedded code (with the `app.py` line ranges it transcribes):

* pick resolution for scheduled games, lines 150-172
  (`getPick`, `resolveScores`, `simulate`, `full_season`);
* `calculate_stats`, lines 175-195 (team universe `allTeams`,
  per-game fold `applyGame` of sequential dict updates);
* win percentage, line 201 (`win_pct`);
* the SOS loop, lines 213-241 (`sosOf`);
* the draft order sort and 1-based rank assignment, lines 248-249
  (`draft_order` over a stable insertion sort, `attachRanks`).

Scores are modelled as `Option ℚ` (numeric-or-null after
`pd.to_numeric(..., errors=coerce)`); percentages as exact rationals.
The stats dict is modelled as a total function from team identifiers
to records; keys outside the team universe keep the zero record,
which matches the dict in that every lookup the code performs is on
a key of the dict.
-/

/-- Game status as computed in `load_data` (line 70) and assigned to
simulated games (line 168). -/
inductive Status where
  | Final
  | Scheduled
  | Simulated
deriving DecidableEq, Repr

/-- A row of the season dataframe: week, teams, nullable scores, status. -/
structure Game where
  week : Nat
  home_team : String
  away_team : String
  home_score : Option ℚ
  away_score : Option ℚ
  status : Status
deriving DecidableEq, Repr

/-- A raw schedule row before simulation, carrying its `game_id`
(lines 72-77). -/
structure RawGame where
  game_id : String
  week : Nat
  home_team : String
  away_team : String
  home_score : Option ℚ
  away_score : Option ℚ
deriving DecidableEq, Repr

/-- Line 69: a game is Scheduled iff either score is null. -/
def isScheduled (g : RawGame) : Bool :=
  g.home_score.isNone || g.away_score.isNone

/-- A raw row viewed as a season row; status per line 70. -/
def toGame (g : RawGame) : Game :=
  ⟨g.week, g.home_team, g.away_team, g.home_score, g.away_score,
    if isScheduled g then Status.Scheduled else Status.Final⟩

/-- Line 154: `st.session_state[user_picks].get(gid, "TBD")` — look the
game id up in the pick mapping, defaulting to `"TBD"`. -/
def getPick (picks : List (String × String)) (gid : String) : String :=
  match picks.lookup gid with
  | some p => p
  | none => "TBD"

/-- Lines 156-162: scores fabricated from a pick. `"Home"` gives
(21, 10), `"Away"` gives (10, 21), anything else — `"Tie"` or the
`"TBD"` default — gives (20, 20). -/
def resolveScores (pick : String) : ℚ × ℚ :=
  if pick = "Home" then (21, 10)
  else if pick = "Away" then (10, 21)
  else (20, 20)

/-- Lines 164-169: the Simulated row appended for a scheduled game. -/
def simulate (picks : List (String × String)) (g : RawGame) : Game :=
  ⟨g.week, g.home_team, g.away_team,
    some (resolveScores (getPick picks g.game_id)).1,
    some (resolveScores (getPick picks g.game_id)).2,
    Status.Simulated⟩

/-- Lines 105-111 and 171-172: final games followed by the simulated
versions of every scheduled game. -/
def full_season (picks : List (String × String)) (gs : List RawGame) :
    List Game :=
  (gs.filter (fun g => !isScheduled g)).map toGame ++
    (gs.filter isScheduled).map (simulate picks)

/-- One entry of the stats dict: line 177. -/
structure TeamRecord where
  wins : Nat
  losses : Nat
  ties : Nat
  games : Nat
  opponents : List String
deriving DecidableEq, Repr

/-- Line 177: the zero record every team starts from. -/
def initRec : TeamRecord := ⟨0, 0, 0, 0, []⟩

/-- Line 176: `pd.unique` over the home and away columns — every team
of every row, first occurrence kept, in row order. -/
def insertTeam (acc : List String) (t : String) : List String :=
  if t ∈ acc then acc else acc ++ [t]

def allTeams (games : List Game) : List String :=
  games.foldl (fun acc g => insertTeam (insertTeam acc g.home_team) g.away_team) []

/-- A single dict-entry update: `stats[t] = f (stats[t])`. -/
def updateTeam (s : String → TeamRecord) (t : String)
    (f : TeamRecord → TeamRecord) : String → TeamRecord :=
  fun x => if x = t then f (s x) else s x

def addOpp (o : String) (r : TeamRecord) : TeamRecord :=
  { r with opponents := r.opponents ++ [o] }

def gameInc (r : TeamRecord) : TeamRecord := { r with games := r.games + 1 }

def winInc (r : TeamRecord) : TeamRecord := { r with wins := r.wins + 1 }

def lossInc (r : TeamRecord) : TeamRecord := { r with losses := r.losses + 1 }

def tieInc (r : TeamRecord) : TeamRecord := { r with ties := r.ties + 1 }

/-- Lines 185-187: append each team to the other team's opponent list,
then increment both games counters, in source order. -/
def appendOppGames (s : String → TeamRecord) (h a : String) :
    String → TeamRecord :=
  updateTeam (updateTeam (updateTeam (updateTeam s
    h (addOpp a)) a (addOpp h)) h gameInc) a gameInc

/-- Lines 185-194: the body of the loop for a game with both scores
present. -/
def applyDecided (s : String → TeamRecord) (h a : String) (hsc asc : ℚ) :
    String → TeamRecord :=
  let s4 := appendOppGames s h a
  if hsc > asc then updateTeam (updateTeam s4 h winInc) a lossInc
  else if asc > hsc then updateTeam (updateTeam s4 a winInc) h lossInc
  else updateTeam (updateTeam s4 h tieInc) a tieInc

/-- Lines 179-194: one iteration of the loop; line 180 skips any game
with a null score. -/
def applyGame (s : String → TeamRecord) (g : Game) : String → TeamRecord :=
  match g.home_score, g.away_score with
  | some hsc, some asc => applyDecided s g.home_team g.away_team hsc asc
  | _, _ => s

/-- Lines 175-195: fold the whole season into the stats dict. -/
def calculate_stats (games : List Game) : String → TeamRecord :=
  games.foldl applyGame (fun _ => initRec)

/-- Line 201: `(wins + 0.5*ties) / games if games > 0 else 0`. -/
def win_pct (r : TeamRecord) : ℚ :=
  if r.games > 0 then ((r.wins : ℚ) + (1 / 2) * (r.ties : ℚ)) / (r.games : ℚ)
  else 0

/-- Sum of a record field over a list of teams; the accumulators
`opp_w`, `opp_l`, `opp_t` of lines 218-226 in closed form. -/
def sumBy (mu : TeamRecord → Nat) (s : String → TeamRecord)
    (l : List String) : Nat :=
  (l.map fun x => mu (s x)).sum

/-- Line 222: the opponents kept by the `if opp in stats` check —
those present in the team universe the dict was built over. -/
def knownOpps (games : List Game) (t : String) : List String :=
  ((calculate_stats games t).opponents).filter
    (fun o => decide (o ∈ allTeams games))

/-- Lines 216-231: SOS of one team — iterate its opponent list, keep
the opponents present in the stats dict (line 222), sum their wins,
losses and ties, and divide. -/
def sosOf (games : List Game) (t : String) : ℚ :=
  let s := calculate_stats games
  let ow := sumBy TeamRecord.wins s (knownOpps games t)
  let ol := sumBy TeamRecord.losses s (knownOpps games t)
  let ot := sumBy TeamRecord.ties s (knownOpps games t)
  let tot := ow + ol + ot
  if tot > 0 then ((ow : ℚ) + (1 / 2) * (ot : ℚ)) / (tot : ℚ) else 0

/-- One row of the standings dataframe (lines 199-210 and 241). -/
structure StandingsEntry where
  team : String
  w : Nat
  l : Nat
  t : Nat
  win_pct : ℚ
  sos : ℚ
deriving DecidableEq, Repr

/-- Lines 199-210 and 241: one standings row per team of the universe,
in dict order. -/
def standings (games : List Game) : List StandingsEntry :=
  (allTeams games).map fun t =>
    let r := calculate_stats games t
    ⟨t, r.wins, r.losses, r.ties, win_pct r, sosOf games t⟩

/-- Line 248 sort key: ascending by win percentage, then by SOS. -/
def rankLE (x y : StandingsEntry) : Prop :=
  x.win_pct < y.win_pct ∨ (x.win_pct = y.win_pct ∧ x.sos ≤ y.sos)

instance : DecidableRel rankLE := fun x y =>
  inferInstanceAs (Decidable (x.win_pct < y.win_pct ∨
    (x.win_pct = y.win_pct ∧ x.sos ≤ y.sos)))

/-- One row of the externally consumed ranking. -/
structure DraftOrderEntry where
  rank : Nat
  team : String
  win_pct : ℚ
  sos : ℚ
deriving DecidableEq, Repr

/-- Line 249: `draft_order.index += 1` — attach 1-based ranks in sorted
order. -/
def attachRanks : Nat → List StandingsEntry → List DraftOrderEntry
  | _, [] => []
  | n, e :: rest => ⟨n, e.team, e.win_pct, e.sos⟩ :: attachRanks (n + 1) rest

/-- Lines 248-249: sort the standings rows by (win percentage, SOS)
ascending and number them from 1. The multi-key `sort_values` is a
stable lexicographic sort, modelled by a stable insertion sort. -/
def draft_order (entries : List StandingsEntry) : List DraftOrderEntry :=
  attachRanks 1 (List.insertionSort rankLE entries)

/-- The whole engine: aggregate, compute SOS, rank. -/
def pipeline (games : List Game) : List DraftOrderEntry :=
  draft_order (standings games)

/-- The engine fed by the pick-resolution stage. -/
def fullPipeline (picks : List (String × String)) (gs : List RawGame) :
    List DraftOrderEntry :=
  pipeline (full_season picks gs)

/-- A decided game whose scores differ (home win or away win). -/
def isNonTiedDecided (g : Game) : Bool :=
  match g.home_score, g.away_score with
  | some hsc, some asc => decide (hsc ≠ asc)
  | _, _ => false

/-- A decided game with equal scores. -/
def isTiedDecided (g : Game) : Bool :=
  match g.home_score, g.away_score with
  | some hsc, some asc => decide (hsc = asc)
  | _, _ => false

/-- The (win percentage, SOS) sort key order, ascending lexicographic. -/
def pairLE (p q : ℚ × ℚ) : Prop :=
  p.1 < q.1 ∨ (p.1 = q.1 ∧ p.2 ≤ q.2)

instance : IsTotal StandingsEntry rankLE := by
  constructor
  intro a b
  rcases lt_trichotomy a.win_pct b.win_pct with h | h | h
  · exact Or.inl (Or.inl h)
  · rcases le_total a.sos b.sos with h' | h'
    · exact Or.inl (Or.inr ⟨h, h'⟩)
    · exact Or.inr (Or.inr ⟨h.symm, h'⟩)
  · exact Or.inr (Or.inl h)

instance : IsTrans StandingsEntry rankLE := by
  constructor
  intro a b c hab hbc
  rcases hab with h1 | ⟨h1, h1'⟩ <;> rcases hbc with h2 | ⟨h2, h2'⟩
  · exact Or.inl (h1.trans h2)
  · exact Or.inl (by rw [← h2]; exact h1)
  · exact Or.inl (by rw [h1]; exact h2)
  · exact Or.inr ⟨h1.trans h2, h1'.trans h2'⟩

/-- The 3-team, 3-week scenario of the spec: Week1 home A 30 - away
B 15, Week2 home B 20 - away C 20, Week3 home C 24 - away A 14. -/
def scenarioGames : List Game :=
  [⟨1, "A", "B", some 30, some 15, Status.Final⟩,
   ⟨2, "B", "C", some 20, some 20, Status.Final⟩,
   ⟨3, "C", "A", some 24, some 14, Status.Final⟩]

/-- An undecided week-5 game between A and B, used to exercise the
pick-resolution path with no pick stored for the game. -/
def unresolvedRaw : RawGame := ⟨"g1", 5, "A", "B", none, none⟩

/-- A schedule consisting of one undecided game: zero decided games. -/
def nullSeason : List Game := [⟨1, "A", "B", none, none, Status.Scheduled⟩]

/-- Evaluation shape of `sosOf`: once the three accumulator sums are
known as numerals, the SOS value is a closed rational expression. -/
theorem sosOf_eval (games : List Game) (t : String) (ow ol ot : Nat)
    (hw : sumBy TeamRecord.wins (calculate_stats games) (knownOpps games t) = ow)
    (hl : sumBy TeamRecord.losses (calculate_stats games) (knownOpps games t) = ol)
    (ht : sumBy TeamRecord.ties (calculate_stats games) (knownOpps games t) = ot) :
    sosOf games t =
      if ow + ol + ot > 0 then
        ((ow : ℚ) + (1 / 2) * (ot : ℚ)) / ((ow + ol + ot : Nat) : ℚ)
      else 0 := by
  subst hw hl ht; rfl

/-! ### Dict-update and sum machinery -/

theorem updateTeam_self (s : String → TeamRecord) (t : String)
    (f : TeamRecord → TeamRecord) : updateTeam s t f t = f (s t) := by
  simp [updateTeam]

theorem updateTeam_ne (s : String → TeamRecord) (t : String)
    (f : TeamRecord → TeamRecord) {x : String} (h : x ≠ t) :
    updateTeam s t f x = s x := by
  simp [updateTeam, h]

theorem sumBy_nil (mu : TeamRecord → Nat) (s : String → TeamRecord) :
    sumBy mu s [] = 0 := rfl

theorem sumBy_cons (mu : TeamRecord → Nat) (s : String → TeamRecord)
    (x : String) (L : List String) :
    sumBy mu s (x :: L) = mu (s x) + sumBy mu s L := by
  simp [sumBy]

theorem sumBy_congr (mu : TeamRecord → Nat) {s1 s2 : String → TeamRecord}
    {L : List String} (h : ∀ y ∈ L, s1 y = s2 y) :
    sumBy mu s1 L = sumBy mu s2 L := by
  unfold sumBy
  exact congrArg _ (List.map_congr_left fun y hy => congrArg mu (h y hy))

theorem sumBy_update (mu : TeamRecord → Nat) (f : TeamRecord → TeamRecord)
    (s : String → TeamRecord) (t : String) (L : List String)
    (hnd : L.Nodup) (hmem : t ∈ L) :
    sumBy mu (updateTeam s t f) L + mu (s t) = sumBy mu s L + mu (f (s t)) := by
  induction L with
  | nil => cases hmem
  | cons x L ih =>
    rcases List.nodup_cons.mp hnd with ⟨hx, hL⟩
    by_cases hxt : x = t
    · subst hxt
      have htail : sumBy mu (updateTeam s x f) L = sumBy mu s L :=
        sumBy_congr mu fun y hy => updateTeam_ne s x f (fun e => hx (e ▸ hy))
      rw [sumBy_cons, sumBy_cons, updateTeam_self, htail]
      omega
    · have hmem' : t ∈ L := by
        rcases List.mem_cons.mp hmem with h | h
        · exact absurd h.symm hxt
        · exact h
      have := ih hL hmem'
      rw [sumBy_cons, sumBy_cons, updateTeam_ne s t f hxt]
      omega

theorem sumBy_update_add (mu : TeamRecord → Nat) (f : TeamRecord → TeamRecord)
    (s : String → TeamRecord) (t : String) (L : List String) (k : Nat)
    (hk : mu (f (s t)) = mu (s t) + k) (hnd : L.Nodup) (hmem : t ∈ L) :
    sumBy mu (updateTeam s t f) L = sumBy mu s L + k := by
  have := sumBy_update mu f s t L hnd hmem
  omega

/-! ### Evaluation of one loop iteration -/

theorem applyGame_some (s : String → TeamRecord) (g : Game) (hsc asc : ℚ)
    (h1 : g.home_score = some hsc) (h2 : g.away_score = some asc) :
    applyGame s g = applyDecided s g.home_team g.away_team hsc asc := by
  unfold applyGame
  rw [h1, h2]

theorem applyGame_none (s : String → TeamRecord) (g : Game)
    (h : g.home_score = none ∨ g.away_score = none) : applyGame s g = s := by
  unfold applyGame
  rcases h with h | h <;>
    rcases h1 : g.home_score with _ | hsc <;>
    rcases h2 : g.away_score with _ | asc <;>
    simp_all

/-! ### Pointwise characterization of one decided game, distinct teams -/

theorem applyDecided_home_gt (s : String → TeamRecord) (h a : String)
    (hsc asc : ℚ) (hne : h ≠ a) (hgt : asc < hsc) :
    applyDecided s h a hsc asc h = winInc (gameInc (addOpp a (s h))) := by
  simp [applyDecided, appendOppGames, updateTeam, hne, Ne.symm hne, hgt]

theorem applyDecided_away_gt (s : String → TeamRecord) (h a : String)
    (hsc asc : ℚ) (hne : h ≠ a) (hgt : asc < hsc) :
    applyDecided s h a hsc asc a = lossInc (gameInc (addOpp h (s a))) := by
  simp [applyDecided, appendOppGames, updateTeam, hne, Ne.symm hne, hgt]

theorem applyDecided_home_lt (s : String → TeamRecord) (h a : String)
    (hsc asc : ℚ) (hne : h ≠ a) (hlt : hsc < asc) :
    applyDecided s h a hsc asc h = lossInc (gameInc (addOpp a (s h))) := by
  simp [applyDecided, appendOppGames, updateTeam, hne, Ne.symm hne, hlt,
    not_lt.mpr (le_of_lt hlt)]

theorem applyDecided_away_lt (s : String → TeamRecord) (h a : String)
    (hsc asc : ℚ) (hne : h ≠ a) (hlt : hsc < asc) :
    applyDecided s h a hsc asc a = winInc (gameInc (addOpp h (s a))) := by
  simp [applyDecided, appendOppGames, updateTeam, hne, Ne.symm hne, hlt,
    not_lt.mpr (le_of_lt hlt)]

theorem applyDecided_home_eq (s : String → TeamRecord) (h a : String)
    (hsc asc : ℚ) (hne : h ≠ a) (heq : hsc = asc) :
    applyDecided s h a hsc asc h = tieInc (gameInc (addOpp a (s h))) := by
  subst heq
  simp [applyDecided, appendOppGames, updateTeam, hne, Ne.symm hne]

theorem applyDecided_away_eq (s : String → TeamRecord) (h a : String)
    (hsc asc : ℚ) (hne : h ≠ a) (heq : hsc = asc) :
    applyDecided s h a hsc asc a = tieInc (gameInc (addOpp h (s a))) := by
  subst heq
  simp [applyDecided, appendOppGames, updateTeam, hne, Ne.symm hne]

theorem applyDecided_other (s : String → TeamRecord) (h a : String)
    (hsc asc : ℚ) {t : String} (h1 : t ≠ h) (h2 : t ≠ a) :
    applyDecided s h a hsc asc t = s t := by
  unfold applyDecided
  split_ifs <;> simp [appendOppGames, updateTeam, h1, h2]

/-! ### Record invariants of the aggregation fold -/

theorem applyDecided_balance (s : String → TeamRecord) (h a : String)
    (hsc asc : ℚ)
    (hs : ∀ t, (s t).wins + (s t).losses + (s t).ties = (s t).games)
    (t : String) :
    ((applyDecided s h a hsc asc) t).wins +
      ((applyDecided s h a hsc asc) t).losses +
      ((applyDecided s h a hsc asc) t).ties =
      ((applyDecided s h a hsc asc) t).games := by
  have hst := hs t
  have hsa := hs a
  have hsh := hs h
  clear hs
  simp only [applyDecided, appendOppGames]
  split_ifs <;> simp only [updateTeam] <;> split_ifs <;>
    simp_all [winInc, lossInc, tieInc, gameInc, addOpp] <;> omega

theorem applyGame_balance (s : String → TeamRecord) (g : Game)
    (hs : ∀ t, (s t).wins + (s t).losses + (s t).ties = (s t).games)
    (t : String) :
    ((applyGame s g) t).wins + ((applyGame s g) t).losses +
      ((applyGame s g) t).ties = ((applyGame s g) t).games := by
  rcases h1 : g.home_score with _ | hsc
  · rw [applyGame_none s g (Or.inl h1)]; exact hs t
  · rcases h2 : g.away_score with _ | asc
    · rw [applyGame_none s g (Or.inr h2)]; exact hs t
    · rw [applyGame_some s g hsc asc h1 h2]
      exact applyDecided_balance s g.home_team g.away_team hsc asc hs t

theorem foldl_balance (gs : List Game) :
    ∀ s : String → TeamRecord,
      (∀ t, (s t).wins + (s t).losses + (s t).ties = (s t).games) →
      ∀ t, ((gs.foldl applyGame s) t).wins + ((gs.foldl applyGame s) t).losses +
        ((gs.foldl applyGame s) t).ties = ((gs.foldl applyGame s) t).games := by
  induction gs with
  | nil => intro s hs; exact hs
  | cons g gs ih => intro s hs; exact ih _ (applyGame_balance s g hs)

theorem calc_balance (games : List Game) (t : String) :
    (calculate_stats games t).wins + (calculate_stats games t).losses +
      (calculate_stats games t).ties = (calculate_stats games t).games :=
  foldl_balance games _ (fun _ => rfl) t

theorem applyDecided_oplen (s : String → TeamRecord) (h a : String)
    (hsc asc : ℚ)
    (hs : ∀ t, (s t).opponents.length = (s t).games) (t : String) :
    ((applyDecided s h a hsc asc) t).opponents.length =
      ((applyDecided s h a hsc asc) t).games := by
  have hst := hs t
  have hsa := hs a
  have hsh := hs h
  clear hs
  simp only [applyDecided, appendOppGames]
  split_ifs <;> simp only [updateTeam] <;> split_ifs <;>
    simp_all [winInc, lossInc, tieInc, gameInc, addOpp] <;> omega

theorem applyGame_oplen (s : String → TeamRecord) (g : Game)
    (hs : ∀ t, (s t).opponents.length = (s t).games) (t : String) :
    ((applyGame s g) t).opponents.length = ((applyGame s g) t).games := by
  rcases h1 : g.home_score with _ | hsc
  · rw [applyGame_none s g (Or.inl h1)]; exact hs t
  · rcases h2 : g.away_score with _ | asc
    · rw [applyGame_none s g (Or.inr h2)]; exact hs t
    · rw [applyGame_some s g hsc asc h1 h2]
      exact applyDecided_oplen s g.home_team g.away_team hsc asc hs t

theorem foldl_oplen (gs : List Game) :
    ∀ s : String → TeamRecord,
      (∀ t, (s t).opponents.length = (s t).games) →
      ∀ t, ((gs.foldl applyGame s) t).opponents.length =
        ((gs.foldl applyGame s) t).games := by
  induction gs with
  | nil => intro s hs; exact hs
  | cons g gs ih => intro s hs; exact ih _ (applyGame_oplen s g hs)

theorem calc_oplen (games : List Game) (t : String) :
    (calculate_stats games t).opponents.length =
      (calculate_stats games t).games :=
  foldl_oplen games _ (fun _ => rfl) t

theorem applyDecided_games_mono (s : String → TeamRecord) (h a : String)
    (hsc asc : ℚ) (t : String) :
    (s t).games ≤ ((applyDecided s h a hsc asc) t).games := by
  simp only [applyDecided, appendOppGames]
  split_ifs <;> simp only [updateTeam] <;> split_ifs <;>
    simp_all [winInc, lossInc, tieInc, gameInc, addOpp] <;> omega

theorem applyGame_games_mono (s : String → TeamRecord) (g : Game)
    (t : String) : (s t).games ≤ ((applyGame s g) t).games := by
  rcases h1 : g.home_score with _ | hsc
  · rw [applyGame_none s g (Or.inl h1)]
  · rcases h2 : g.away_score with _ | asc
    · rw [applyGame_none s g (Or.inr h2)]
    · rw [applyGame_some s g hsc asc h1 h2]
      exact applyDecided_games_mono s g.home_team g.away_team hsc asc t

theorem applyDecided_games_home_pos (s : String → TeamRecord) (h a : String)
    (hsc asc : ℚ) : 1 ≤ ((applyDecided s h a hsc asc) h).games := by
  simp only [applyDecided, appendOppGames]
  split_ifs <;> simp only [updateTeam] <;> split_ifs <;>
    simp_all [winInc, lossInc, tieInc, gameInc, addOpp] <;> omega

theorem applyDecided_games_away_pos (s : String → TeamRecord) (h a : String)
    (hsc asc : ℚ) : 1 ≤ ((applyDecided s h a hsc asc) a).games := by
  simp only [applyDecided, appendOppGames]
  split_ifs <;> simp only [updateTeam] <;> split_ifs <;>
    simp_all [winInc, lossInc, tieInc, gameInc, addOpp] <;> omega

theorem applyDecided_opponents_sub (s : String → TeamRecord) (h a : String)
    (hsc asc : ℚ) (t o : String)
    (ho : o ∈ ((applyDecided s h a hsc asc) t).opponents) :
    o ∈ (s t).opponents ∨ o = h ∨ o = a := by
  revert ho
  simp only [applyDecided, appendOppGames]
  split_ifs <;> simp only [updateTeam] <;> split_ifs <;> intro ho <;>
    simp_all [winInc, lossInc, tieInc, gameInc, addOpp] <;> tauto

/-! ### The team universe -/

theorem mem_insertTeam_self (acc : List String) (t : String) :
    t ∈ insertTeam acc t := by
  by_cases h : t ∈ acc <;> simp [insertTeam, h]

theorem mem_insertTeam_mono (acc : List String) (t : String) {x : String}
    (hx : x ∈ acc) : x ∈ insertTeam acc t := by
  by_cases h : t ∈ acc <;> simp [insertTeam, h, hx]

theorem nodup_insertTeam (acc : List String) (t : String)
    (hacc : acc.Nodup) : (insertTeam acc t).Nodup := by
  by_cases h : t ∈ acc <;>
    simp [insertTeam, h, hacc, List.nodup_append, List.disjoint_singleton]

theorem nodup_teams_foldl (gs : List Game) :
    ∀ acc : List String, acc.Nodup →
      (gs.foldl (fun acc g =>
        insertTeam (insertTeam acc g.home_team) g.away_team) acc).Nodup := by
  induction gs with
  | nil => intro acc hacc; exact hacc
  | cons g gs ih =>
    intro acc hacc
    exact ih _ (nodup_insertTeam _ _ (nodup_insertTeam _ _ hacc))

theorem allTeams_nodup (games : List Game) : (allTeams games).Nodup :=
  nodup_teams_foldl games [] List.nodup_nil

theorem mem_teams_foldl_mono (gs : List Game) :
    ∀ acc : List String, ∀ x ∈ acc,
      x ∈ gs.foldl (fun acc g =>
        insertTeam (insertTeam acc g.home_team) g.away_team) acc := by
  induction gs with
  | nil => intro acc x hx; exact hx
  | cons g gs ih =>
    intro acc x hx
    exact ih _ x (mem_insertTeam_mono _ _ (mem_insertTeam_mono _ _ hx))

theorem mem_teams_foldl (gs : List Game) :
    ∀ acc : List String, ∀ g ∈ gs,
      g.home_team ∈ gs.foldl (fun acc g =>
          insertTeam (insertTeam acc g.home_team) g.away_team) acc ∧
      g.away_team ∈ gs.foldl (fun acc g =>
          insertTeam (insertTeam acc g.home_team) g.away_team) acc := by
  induction gs with
  | nil => intro acc g hg; cases hg
  | cons g0 gs ih =>
    intro acc g hg
    rcases List.mem_cons.mp hg with rfl | hg
    · constructor
      · exact mem_teams_foldl_mono gs _ _
          (mem_insertTeam_mono _ _ (mem_insertTeam_self _ _))
      · exact mem_teams_foldl_mono gs _ _ (mem_insertTeam_self _ _)
    · exact ih _ g hg

theorem mem_allTeams (games : List Game) {g : Game} (hg : g ∈ games) :
    g.home_team ∈ allTeams games ∧ g.away_team ∈ allTeams games :=
  mem_teams_foldl games [] g hg

/-! ### Opponents live in the team universe and have played a game -/

theorem applyGame_opponents_sub (s : String → TeamRecord) (g : Game)
    (t o : String) (ho : o ∈ ((applyGame s g) t).opponents) :
    o ∈ (s t).opponents ∨ o = g.home_team ∨ o = g.away_team := by
  rcases h1 : g.home_score with _ | hsc
  · rw [applyGame_none s g (Or.inl h1)] at ho; exact Or.inl ho
  · rcases h2 : g.away_score with _ | asc
    · rw [applyGame_none s g (Or.inr h2)] at ho; exact Or.inl ho
    · rw [applyGame_some s g hsc asc h1 h2] at ho
      exact applyDecided_opponents_sub s g.home_team g.away_team hsc asc t o ho

theorem foldl_opponents_mem (T : List String) (gs : List Game) :
    ∀ s : String → TeamRecord,
      (∀ g ∈ gs, g.home_team ∈ T ∧ g.away_team ∈ T) →
      (∀ t o, o ∈ (s t).opponents → o ∈ T) →
      ∀ t o, o ∈ ((gs.foldl applyGame s) t).opponents → o ∈ T := by
  induction gs with
  | nil => intro s _ hmem t o ho; exact hmem t o ho
  | cons g gs ih =>
    intro s hgs hmem t o ho
    refine ih _ (fun g' hg' => hgs g' (List.mem_cons_of_mem g hg')) ?_ t o ho
    intro t' o' ho'
    rcases applyGame_opponents_sub s g t' o' ho' with h | rfl | rfl
    · exact hmem t' o' h
    · exact (hgs g (List.mem_cons_self g gs)).1
    · exact (hgs g (List.mem_cons_self g gs)).2

theorem calc_opponents_mem (games : List Game) (t o : String)
    (ho : o ∈ (calculate_stats games t).opponents) : o ∈ allTeams games := by
  refine foldl_opponents_mem (allTeams games) games _ ?_ ?_ t o ho
  · intro g hg; exact mem_allTeams games hg
  · intro t' o' ho'
    simp [initRec] at ho'

theorem applyGame_pos (s : String → TeamRecord) (g : Game)
    (hp : ∀ t o, o ∈ (s t).opponents → 1 ≤ (s o).games) :
    ∀ t o, o ∈ ((applyGame s g) t).opponents → 1 ≤ ((applyGame s g) o).games := by
  intro t o ho
  rcases h1 : g.home_score with _ | hsc
  · rw [applyGame_none s g (Or.inl h1)] at *; exact hp t o ho
  · rcases h2 : g.away_score with _ | asc
    · rw [applyGame_none s g (Or.inr h2)] at *; exact hp t o ho
    · rw [applyGame_some s g hsc asc h1 h2] at *
      rcases applyDecided_opponents_sub s g.home_team g.away_team hsc asc t o ho
        with h | rfl | rfl
      · exact le_trans (hp t o h)
          (applyDecided_games_mono s g.home_team g.away_team hsc asc o)
      · exact applyDecided_games_home_pos s g.home_team g.away_team hsc asc
      · exact applyDecided_games_away_pos s g.home_team g.away_team hsc asc

theorem foldl_pos (gs : List Game) :
    ∀ s : String → TeamRecord,
      (∀ t o, o ∈ (s t).opponents → 1 ≤ (s o).games) →
      ∀ t o, o ∈ ((gs.foldl applyGame s) t).opponents →
        1 ≤ ((gs.foldl applyGame s) o).games := by
  induction gs with
  | nil => intro s hp; exact hp
  | cons g gs ih => intro s hp; exact ih _ (applyGame_pos s g hp)

theorem calc_pos (games : List Game) (t o : String)
    (ho : o ∈ (calculate_stats games t).opponents) :
    1 ≤ (calculate_stats games o).games := by
  refine foldl_pos games _ ?_ t o ho
  intro t' o' ho'
  simp [initRec] at ho'

/-! ### Global win and tie sums across one game -/

theorem sumBy_appendOppGames (mu : TeamRecord → Nat)
    (hmu1 : ∀ r o, mu (addOpp o r) = mu r) (hmu2 : ∀ r, mu (gameInc r) = mu r)
    (s : String → TeamRecord) (h a : String) (L : List String)
    (hnd : L.Nodup) (hh : h ∈ L) (ha : a ∈ L) :
    sumBy mu (appendOppGames s h a) L = sumBy mu s L := by
  unfold appendOppGames
  rw [sumBy_update_add mu gameInc _ a L 0 (by simp [hmu2]) hnd ha,
    sumBy_update_add mu gameInc _ h L 0 (by simp [hmu2]) hnd hh,
    sumBy_update_add mu (addOpp h) _ a L 0 (by simp [hmu1]) hnd ha,
    sumBy_update_add mu (addOpp a) _ h L 0 (by simp [hmu1]) hnd hh]
  omega

theorem sumBy_wins_applyDecided_ne (s : String → TeamRecord) (h a : String)
    (hsc asc : ℚ) (L : List String) (hne : hsc ≠ asc)
    (hnd : L.Nodup) (hh : h ∈ L) (ha : a ∈ L) :
    sumBy TeamRecord.wins (applyDecided s h a hsc asc) L =
      sumBy TeamRecord.wins s L + 1 := by
  simp only [applyDecided]
  split_ifs with h1 h2
  · rw [sumBy_update_add TeamRecord.wins lossInc _ a L 0 (by simp [lossInc]) hnd ha,
      sumBy_update_add TeamRecord.wins winInc _ h L 1 (by simp [winInc]) hnd hh,
      sumBy_appendOppGames TeamRecord.wins (fun r o => by simp [addOpp])
        (fun r => by simp [gameInc]) s h a L hnd hh ha]
  · rw [sumBy_update_add TeamRecord.wins lossInc _ h L 0 (by simp [lossInc]) hnd hh,
      sumBy_update_add TeamRecord.wins winInc _ a L 1 (by simp [winInc]) hnd ha,
      sumBy_appendOppGames TeamRecord.wins (fun r o => by simp [addOpp])
        (fun r => by simp [gameInc]) s h a L hnd hh ha]
  · exact absurd (le_antisymm (not_lt.mp h1) (not_lt.mp h2)) hne

theorem sumBy_wins_applyDecided_eq (s : String → TeamRecord) (h a : String)
    (hsc asc : ℚ) (L : List String) (heq : hsc = asc)
    (hnd : L.Nodup) (hh : h ∈ L) (ha : a ∈ L) :
    sumBy TeamRecord.wins (applyDecided s h a hsc asc) L =
      sumBy TeamRecord.wins s L := by
  subst heq
  simp only [applyDecided, lt_self_iff_false, if_false, gt_iff_lt]
  rw [sumBy_update_add TeamRecord.wins tieInc _ a L 0 (by simp [tieInc]) hnd ha,
    sumBy_update_add TeamRecord.wins tieInc _ h L 0 (by simp [tieInc]) hnd hh,
    sumBy_appendOppGames TeamRecord.wins (fun r o => by simp [addOpp])
      (fun r => by simp [gameInc]) s h a L hnd hh ha]
  omega

theorem sumBy_ties_applyDecided_ne (s : String → TeamRecord) (h a : String)
    (hsc asc : ℚ) (L : List String) (hne : hsc ≠ asc)
    (hnd : L.Nodup) (hh : h ∈ L) (ha : a ∈ L) :
    sumBy TeamRecord.ties (applyDecided s h a hsc asc) L =
      sumBy TeamRecord.ties s L := by
  simp only [applyDecided]
  split_ifs with h1 h2
  · rw [sumBy_update_add TeamRecord.ties lossInc _ a L 0 (by simp [lossInc]) hnd ha,
      sumBy_update_add TeamRecord.ties winInc _ h L 0 (by simp [winInc]) hnd hh,
      sumBy_appendOppGames TeamRecord.ties (fun r o => by simp [addOpp])
        (fun r => by simp [gameInc]) s h a L hnd hh ha]
    omega
  · rw [sumBy_update_add TeamRecord.ties lossInc _ h L 0 (by simp [lossInc]) hnd hh,
      sumBy_update_add TeamRecord.ties winInc _ a L 0 (by simp [winInc]) hnd ha,
      sumBy_appendOppGames TeamRecord.ties (fun r o => by simp [addOpp])
        (fun r => by simp [gameInc]) s h a L hnd hh ha]
    omega
  · exact absurd (le_antisymm (not_lt.mp h1) (not_lt.mp h2)) hne

theorem sumBy_ties_applyDecided_eq (s : String → TeamRecord) (h a : String)
    (hsc asc : ℚ) (L : List String) (heq : hsc = asc)
    (hnd : L.Nodup) (hh : h ∈ L) (ha : a ∈ L) :
    sumBy TeamRecord.ties (applyDecided s h a hsc asc) L =
      sumBy TeamRecord.ties s L + 2 := by
  subst heq
  simp only [applyDecided, lt_self_iff_false, if_false, gt_iff_lt]
  rw [sumBy_update_add TeamRecord.ties tieInc _ a L 1 (by simp [tieInc]) hnd ha,
    sumBy_update_add TeamRecord.ties tieInc _ h L 1 (by simp [tieInc]) hnd hh,
    sumBy_appendOppGames TeamRecord.ties (fun r o => by simp [addOpp])
      (fun r => by simp [gameInc]) s h a L hnd hh ha]

theorem sumBy_wins_applyGame (s : String → TeamRecord) (g : Game)
    (L : List String) (hnd : L.Nodup) (hh : g.home_team ∈ L)
    (ha : g.away_team ∈ L) :
    sumBy TeamRecord.wins (applyGame s g) L =
      sumBy TeamRecord.wins s L + (if isNonTiedDecided g then 1 else 0) := by
  rcases h1 : g.home_score with _ | hsc
  · rw [applyGame_none s g (Or.inl h1)]
    simp [isNonTiedDecided, h1]
  · rcases h2 : g.away_score with _ | asc
    · rw [applyGame_none s g (Or.inr h2)]
      simp [isNonTiedDecided, h1, h2]
    · rw [applyGame_some s g hsc asc h1 h2]
      by_cases he : hsc = asc
      · rw [sumBy_wins_applyDecided_eq s _ _ hsc asc L he hnd hh ha]
        simp [isNonTiedDecided, h1, h2, he]
      · rw [sumBy_wins_applyDecided_ne s _ _ hsc asc L he hnd hh ha]
        simp [isNonTiedDecided, h1, h2, he]

theorem sumBy_ties_applyGame (s : String → TeamRecord) (g : Game)
    (L : List String) (hnd : L.Nodup) (hh : g.home_team ∈ L)
    (ha : g.away_team ∈ L) :
    sumBy TeamRecord.ties (applyGame s g) L =
      sumBy TeamRecord.ties s L + (if isTiedDecided g then 2 else 0) := by
  rcases h1 : g.home_score with _ | hsc
  · rw [applyGame_none s g (Or.inl h1)]
    simp [isTiedDecided, h1]
  · rcases h2 : g.away_score with _ | asc
    · rw [applyGame_none s g (Or.inr h2)]
      simp [isTiedDecided, h1, h2]
    · rw [applyGame_some s g hsc asc h1 h2]
      by_cases he : hsc = asc
      · rw [sumBy_ties_applyDecided_eq s _ _ hsc asc L he hnd hh ha]
        simp [isTiedDecided, h1, h2, he]
      · rw [sumBy_ties_applyDecided_ne s _ _ hsc asc L he hnd hh ha]
        simp [isTiedDecided, h1, h2, he]

theorem sumBy_wins_foldl (gs : List Game) :
    ∀ (s : String → TeamRecord) (L : List String), L.Nodup →
      (∀ g ∈ gs, g.home_team ∈ L ∧ g.away_team ∈ L) →
      sumBy TeamRecord.wins (gs.foldl applyGame s) L =
        sumBy TeamRecord.wins s L + (gs.filter isNonTiedDecided).length := by
  induction gs with
  | nil => intro s L _ _; simp
  | cons g gs ih =>
    intro s L hnd hgs
    rw [List.foldl_cons,
      ih _ L hnd (fun g' h => hgs g' (List.mem_cons_of_mem g h)),
      sumBy_wins_applyGame s g L hnd (hgs g (List.mem_cons_self g gs)).1
        (hgs g (List.mem_cons_self g gs)).2, List.filter_cons]
    cases hcase : isNonTiedDecided g <;> simp [hcase] <;> omega

theorem sumBy_ties_foldl (gs : List Game) :
    ∀ (s : String → TeamRecord) (L : List String), L.Nodup →
      (∀ g ∈ gs, g.home_team ∈ L ∧ g.away_team ∈ L) →
      sumBy TeamRecord.ties (gs.foldl applyGame s) L =
        sumBy TeamRecord.ties s L + 2 * (gs.filter isTiedDecided).length := by
  induction gs with
  | nil => intro s L _ _; simp
  | cons g gs ih =>
    intro s L hnd hgs
    rw [List.foldl_cons,
      ih _ L hnd (fun g' h => hgs g' (List.mem_cons_of_mem g h)),
      sumBy_ties_applyGame s g L hnd (hgs g (List.mem_cons_self g gs)).1
        (hgs g (List.mem_cons_self g gs)).2, List.filter_cons]
    cases hcase : isTiedDecided g <;> simp [hcase] <;> omega

theorem sumBy_init (mu : TeamRecord → Nat) (hmu : mu initRec = 0)
    (L : List String) : sumBy mu (fun _ => initRec) L = 0 := by
  induction L with
  | nil => rfl
  | cons x L ih => rw [sumBy_cons, ih, hmu]

theorem sumBy_balance (s : String → TeamRecord)
    (hs : ∀ o, (s o).wins + (s o).losses + (s o).ties = (s o).games)
    (L : List String) :
    sumBy TeamRecord.wins s L + sumBy TeamRecord.losses s L +
      sumBy TeamRecord.ties s L = sumBy TeamRecord.games s L := by
  induction L with
  | nil => rfl
  | cons x L ih =>
    have := hs x
    simp only [sumBy_cons]
    omega

/-! ### The membership filter in the SOS loop keeps every opponent -/

theorem knownOpps_eq (games : List Game) (t : String) :
    knownOpps games t = (calculate_stats games t).opponents := by
  unfold knownOpps
  refine List.filter_eq_self.mpr ?_
  intro o ho
  simpa using calc_opponents_mem games t o ho

/-! ### Rank attachment -/

theorem attachRanks_map_key (l : List StandingsEntry) :
    ∀ n, (attachRanks n l).map (fun d => (d.team, d.win_pct, d.sos)) =
      l.map (fun e => (e.team, e.win_pct, e.sos)) := by
  induction l with
  | nil => intro n; rfl
  | cons e l ih => intro n; simp [attachRanks, ih]

theorem attachRanks_map_pair (l : List StandingsEntry) :
    ∀ n, (attachRanks n l).map (fun d => (d.win_pct, d.sos)) =
      l.map (fun e => (e.win_pct, e.sos)) := by
  induction l with
  | nil => intro n; rfl
  | cons e l ih => intro n; simp [attachRanks, ih]

theorem attachRanks_map_rank (l : List StandingsEntry) :
    ∀ n, (attachRanks n l).map DraftOrderEntry.rank = List.range' n l.length := by
  induction l with
  | nil => intro n; rfl
  | cons e l ih => intro n; simp [attachRanks, ih, List.range'_succ]

theorem attachRanks_length (l : List StandingsEntry) :
    ∀ n, (attachRanks n l).length = l.length := by
  induction l with
  | nil => intro n; rfl
  | cons e l ih => intro n; simp [attachRanks, ih]

theorem standings_length (games : List Game) :
    (standings games).length = (allTeams games).length := by
  simp [standings]

theorem draft_order_length (entries : List StandingsEntry) :
    (draft_order entries).length = entries.length := by
  rw [draft_order, attachRanks_length, List.length_insertionSort]

theorem pipeline_length (games : List Game) :
    (pipeline games).length = (allTeams games).length := by
  rw [pipeline, draft_order_length, standings_length]

theorem foldl_null (gs : List Game) :
    ∀ s : String → TeamRecord,
      (∀ g ∈ gs, g.home_score = none ∨ g.away_score = none) →
      gs.foldl applyGame s = s := by
  induction gs with
  | nil => intro s _; rfl
  | cons g gs ih =>
    intro s hnull
    rw [List.foldl_cons, applyGame_none s g (hnull g (List.mem_cons_self g gs))]
    exact ih s (fun g' h => hnull g' (List.mem_cons_of_mem g h))

/-- C7: over any finite outcome list, the wins summed over all teams of
the universe equal the number of decided non-tied games, and the ties
summed over all teams equal twice the number of decided tied games. -/
theorem C7_win_tie_totals (games : List Game) :
    sumBy TeamRecord.wins (calculate_stats games) (allTeams games) =
      (games.filter isNonTiedDecided).length ∧
    sumBy TeamRecord.ties (calculate_stats games) (allTeams games) =
      2 * (games.filter isTiedDecided).length := by
  constructor
  · unfold calculate_stats
    rw [sumBy_wins_foldl games _ _ (allTeams_nodup games)
      (fun g hg => mem_allTeams games hg), sumBy_init TeamRecord.wins rfl]
    omega
  · unfold calculate_stats
    rw [sumBy_ties_foldl games _ _ (allTeams_nodup games)
      (fun g hg => mem_allTeams games hg), sumBy_init TeamRecord.ties rfl]
    omega

/-- C10: every aggregated record satisfies wins + losses + ties =
games_played; hence the SOS denominator the code accumulates (opponent
wins + losses + ties) coincides with the opponents' games_played sum;
and every opponent recorded anywhere belongs to the stats dict's key
set (the team universe). -/
theorem C10_record_invariants (games : List Game) :
    (∀ t, (calculate_stats games t).wins + (calculate_stats games t).losses +
      (calculate_stats games t).ties = (calculate_stats games t).games) ∧
    (∀ t,
      sumBy TeamRecord.wins (calculate_stats games)
          (calculate_stats games t).opponents +
        sumBy TeamRecord.losses (calculate_stats games)
          (calculate_stats games t).opponents +
        sumBy TeamRecord.ties (calculate_stats games)
          (calculate_stats games t).opponents =
      sumBy TeamRecord.games (calculate_stats games)
        (calculate_stats games t).opponents) ∧
    (∀ t o, o ∈ (calculate_stats games t).opponents → o ∈ allTeams games) :=
  ⟨calc_balance games,
    fun t => sumBy_balance _ (fun o => calc_balance games o) _,
    calc_opponents_mem games⟩

theorem C10_witness :
    "B" ∈ allTeams scenarioGames ∧
      sumBy TeamRecord.wins (calculate_stats scenarioGames)
          (calculate_stats scenarioGames "A").opponents +
        sumBy TeamRecord.losses (calculate_stats scenarioGames)
          (calculate_stats scenarioGames "A").opponents +
        sumBy TeamRecord.ties (calculate_stats scenarioGames)
          (calculate_stats scenarioGames "A").opponents =
      sumBy TeamRecord.games (calculate_stats scenarioGames)
        (calculate_stats scenarioGames "A").opponents :=
  ⟨(C10_record_invariants scenarioGames).2.2 "A" "B" (by decide),
    (C10_record_invariants scenarioGames).2.1 "A"⟩

/-- C5: win percentage is (wins + ties/2) / games_played when at least
one game was played, and a team with zero games has win percentage 0
and SOS 0. -/
theorem C5_zero_game_guard (games : List Game) (t : String) :
    (0 < (calculate_stats games t).games →
      win_pct (calculate_stats games t) =
        (((calculate_stats games t).wins : ℚ) +
          (1 / 2) * ((calculate_stats games t).ties : ℚ)) /
          (((calculate_stats games t).games : Nat) : ℚ)) ∧
    ((calculate_stats games t).games = 0 →
      win_pct (calculate_stats games t) = 0 ∧ sosOf games t = 0) := by
  constructor
  · intro hpos
    unfold win_pct
    rw [if_pos hpos]
  · intro hzero
    constructor
    · unfold win_pct
      rw [if_neg (by omega)]
    · have hopp : (calculate_stats games t).opponents = [] := by
        have := calc_oplen games t
        rw [hzero] at this
        exact List.eq_nil_of_length_eq_zero this
      simp [sosOf, knownOpps_eq, hopp, sumBy]

theorem C5_witness :
    win_pct (calculate_stats scenarioGames "A") =
      (((calculate_stats scenarioGames "A").wins : ℚ) +
        (1 / 2) * ((calculate_stats scenarioGames "A").ties : ℚ)) /
        (((calculate_stats scenarioGames "A").games : Nat) : ℚ) ∧
    win_pct (calculate_stats nullSeason "A") = 0 ∧ sosOf nullSeason "A" = 0 :=
  ⟨(C5_zero_game_guard scenarioGames "A").1 (by decide),
    (C5_zero_game_guard nullSeason "A").2 (by decide)⟩

/-- C2: for a team with a non-empty opponent multiset, SOS equals
(opponent wins + opponent ties / 2) divided by opponent games_played,
summed over the opponent multiset with rematches counted per matchup
and each opponent contributing its whole aggregate record; with an
empty opponent multiset, SOS is 0. -/
theorem C2_sos_formula (games : List Game) (t : String) :
    ((calculate_stats games t).opponents ≠ [] →
      sosOf games t =
        ((sumBy TeamRecord.wins (calculate_stats games)
            (calculate_stats games t).opponents : ℚ) +
          (1 / 2) * (sumBy TeamRecord.ties (calculate_stats games)
            (calculate_stats games t).opponents : ℚ)) /
          ((sumBy TeamRecord.games (calculate_stats games)
            (calculate_stats games t).opponents : Nat) : ℚ)) ∧
    ((calculate_stats games t).opponents = [] → sosOf games t = 0) := by
  constructor
  · intro hne
    have hbal : sumBy TeamRecord.wins (calculate_stats games)
          (calculate_stats games t).opponents +
        sumBy TeamRecord.losses (calculate_stats games)
          (calculate_stats games t).opponents +
        sumBy TeamRecord.ties (calculate_stats games)
          (calculate_stats games t).opponents =
        sumBy TeamRecord.games (calculate_stats games)
          (calculate_stats games t).opponents :=
      sumBy_balance _ (fun o => calc_balance games o) _
    have hpos : 0 < sumBy TeamRecord.games (calculate_stats games)
        (calculate_stats games t).opponents := by
      rcases hcase : (calculate_stats games t).opponents with _ | ⟨o, rest⟩
      · exact absurd hcase hne
      · have hmem : o ∈ (calculate_stats games t).opponents := by
          rw [hcase]; exact List.mem_cons_self o rest
        have := calc_pos games t o hmem
        rw [sumBy_cons]
        omega
    have hcast : ((sumBy TeamRecord.wins (calculate_stats games)
          (calculate_stats games t).opponents +
        sumBy TeamRecord.losses (calculate_stats games)
          (calculate_stats games t).opponents +
        sumBy TeamRecord.ties (calculate_stats games)
          (calculate_stats games t).opponents : Nat) : ℚ) =
        ((sumBy TeamRecord.games (calculate_stats games)
          (calculate_stats games t).opponents : Nat) : ℚ) := by
      exact_mod_cast hbal
    simp only [sosOf, knownOpps_eq]
    split_ifs with hc
    · rw [hcast]
    · exact ((hc (by omega)).elim)
  · intro hnil
    simp [sosOf, knownOpps_eq, hnil, sumBy]

theorem C2_witness :
    sosOf scenarioGames "A" =
      ((sumBy TeamRecord.wins (calculate_stats scenarioGames)
          (calculate_stats scenarioGames "A").opponents : ℚ) +
        (1 / 2) * (sumBy TeamRecord.ties (calculate_stats scenarioGames)
          (calculate_stats scenarioGames "A").opponents : ℚ)) /
        ((sumBy TeamRecord.games (calculate_stats scenarioGames)
          (calculate_stats scenarioGames "A").opponents : Nat) : ℚ) ∧
    sosOf nullSeason "A" = 0 :=
  ⟨(C2_sos_formula scenarioGames "A").1 (by decide),
    (C2_sos_formula nullSeason "A").2 (by decide)⟩

/-- C6: the Ranker returns a permutation of its input (keyed by team,
win percentage and SOS), sorted ascending by win percentage and then
SOS, with ranks 1..N attached in sorted order and no entry dropped. -/
theorem C6_ranker (entries : List StandingsEntry) :
    ((draft_order entries).map (fun d => (d.team, d.win_pct, d.sos))).Perm
      (entries.map (fun e => (e.team, e.win_pct, e.sos))) ∧
    List.Pairwise pairLE ((draft_order entries).map (fun d => (d.win_pct, d.sos))) ∧
    (draft_order entries).map DraftOrderEntry.rank = List.range' 1 entries.length ∧
    (draft_order entries).length = entries.length := by
  refine ⟨?_, ?_, ?_, draft_order_length entries⟩
  · rw [draft_order, attachRanks_map_key]
    exact (List.perm_insertionSort rankLE entries).map _
  · rw [draft_order, attachRanks_map_pair]
    exact List.Pairwise.map _ (fun x y hxy => hxy)
      (List.sorted_insertionSort rankLE entries)
  · rw [draft_order, attachRanks_map_rank, List.length_insertionSort]

/-- C9: the pipeline is a pure function of the outcome rows and the
pick mapping — equal inputs give equal ranked output. -/
theorem C9_deterministic (p1 p2 : List (String × String))
    (g1 g2 : List RawGame) (hp : p1 = p2) (hg : g1 = g2) :
    fullPipeline p1 g1 = fullPipeline p2 g2 := by
  rw [hp, hg]

theorem C9_witness :
    fullPipeline [] [unresolvedRaw] = fullPipeline [] [unresolvedRaw] :=
  C9_deterministic [] [] [unresolvedRaw] [unresolvedRaw] rfl rfl

/-- C8: a game with a null score on either side leaves the stats dict
untouched (never an error); with zero decided games every team keeps
the all-zero record, win percentage 0 and SOS 0, and the ranking still
returns one entry per team of the universe. -/
theorem C8_null_and_empty (games : List Game)
    (hnull : ∀ g ∈ games, g.home_score = none ∨ g.away_score = none) :
    (∀ (s : String → TeamRecord) (g : Game),
      g.home_score = none ∨ g.away_score = none → applyGame s g = s) ∧
    (∀ t, calculate_stats games t = initRec) ∧
    (∀ t, win_pct (calculate_stats games t) = 0 ∧ sosOf games t = 0) ∧
    (pipeline games).length = (allTeams games).length := by
  have hcalc : ∀ t, calculate_stats games t = initRec := fun t =>
    congrFun (foldl_null games _ hnull) t
  refine ⟨fun s g h => applyGame_none s g h, hcalc, fun t => ⟨?_, ?_⟩,
    pipeline_length games⟩
  · rw [hcalc t]; rfl
  · have hopp : (calculate_stats games t).opponents = [] := by
      rw [hcalc t]; rfl
    simp [sosOf, knownOpps_eq, hopp, sumBy]

theorem C8_witness :
    calculate_stats nullSeason "A" = initRec ∧
    win_pct (calculate_stats nullSeason "B") = 0 ∧
    (pipeline nullSeason).length = (allTeams nullSeason).length :=
  ⟨(C8_null_and_empty nullSeason (by decide)).2.1 "A",
    ((C8_null_and_empty nullSeason (by decide)).2.2.1 "B").1,
    (C8_null_and_empty nullSeason (by decide)).2.2.2⟩

/-- C4: a decided game between two distinct teams appends each team to
the other team's opponent list, increments both games_played counters,
and classifies strictly by score comparison — home win / away loss,
away win / home loss, or a tie for both. -/
theorem C4_decided_game (s : String → TeamRecord) (week : Nat)
    (h a : String) (hsc asc : ℚ) (st : Status) (hne : h ≠ a) :
    (((applyGame s ⟨week, h, a, some hsc, some asc, st⟩) h).opponents =
        (s h).opponents ++ [a] ∧
      ((applyGame s ⟨week, h, a, some hsc, some asc, st⟩) a).opponents =
        (s a).opponents ++ [h] ∧
      ((applyGame s ⟨week, h, a, some hsc, some asc, st⟩) h).games =
        (s h).games + 1 ∧
      ((applyGame s ⟨week, h, a, some hsc, some asc, st⟩) a).games =
        (s a).games + 1) ∧
    (asc < hsc →
      ((applyGame s ⟨week, h, a, some hsc, some asc, st⟩) h).wins =
        (s h).wins + 1 ∧
      ((applyGame s ⟨week, h, a, some hsc, some asc, st⟩) a).losses =
        (s a).losses + 1 ∧
      ((applyGame s ⟨week, h, a, some hsc, some asc, st⟩) h).losses =
        (s h).losses ∧
      ((applyGame s ⟨week, h, a, some hsc, some asc, st⟩) a).wins =
        (s a).wins ∧
      ((applyGame s ⟨week, h, a, some hsc, some asc, st⟩) h).ties =
        (s h).ties ∧
      ((applyGame s ⟨week, h, a, some hsc, some asc, st⟩) a).ties =
        (s a).ties) ∧
    (hsc < asc →
      ((applyGame s ⟨week, h, a, some hsc, some asc, st⟩) a).wins =
        (s a).wins + 1 ∧
      ((applyGame s ⟨week, h, a, some hsc, some asc, st⟩) h).losses =
        (s h).losses + 1 ∧
      ((applyGame s ⟨week, h, a, some hsc, some asc, st⟩) a).losses =
        (s a).losses ∧
      ((applyGame s ⟨week, h, a, some hsc, some asc, st⟩) h).wins =
        (s h).wins ∧
      ((applyGame s ⟨week, h, a, some hsc, some asc, st⟩) h).ties =
        (s h).ties ∧
      ((applyGame s ⟨week, h, a, some hsc, some asc, st⟩) a).ties =
        (s a).ties) ∧
    (hsc = asc →
      ((applyGame s ⟨week, h, a, some hsc, some asc, st⟩) h).ties =
        (s h).ties + 1 ∧
      ((applyGame s ⟨week, h, a, some hsc, some asc, st⟩) a).ties =
        (s a).ties + 1 ∧
      ((applyGame s ⟨week, h, a, some hsc, some asc, st⟩) h).wins =
        (s h).wins ∧
      ((applyGame s ⟨week, h, a, some hsc, some asc, st⟩) a).wins =
        (s a).wins ∧
      ((applyGame s ⟨week, h, a, some hsc, some asc, st⟩) h).losses =
        (s h).losses ∧
      ((applyGame s ⟨week, h, a, some hsc, some asc, st⟩) a).losses =
        (s a).losses) := by
  have e : applyGame s ⟨week, h, a, some hsc, some asc, st⟩ =
      applyDecided s h a hsc asc := rfl
  rw [e]
  refine ⟨?_, ?_, ?_, ?_⟩
  · rcases lt_trichotomy asc hsc with hcmp | hcmp | hcmp
    · rw [applyDecided_home_gt s h a hsc asc hne hcmp,
        applyDecided_away_gt s h a hsc asc hne hcmp]
      simp [winInc, lossInc, gameInc, addOpp]
    · rw [applyDecided_home_eq s h a hsc asc hne hcmp.symm,
        applyDecided_away_eq s h a hsc asc hne hcmp.symm]
      simp [tieInc, gameInc, addOpp]
    · rw [applyDecided_home_lt s h a hsc asc hne hcmp,
        applyDecided_away_lt s h a hsc asc hne hcmp]
      simp [winInc, lossInc, gameInc, addOpp]
  · intro hgt
    rw [applyDecided_home_gt s h a hsc asc hne hgt,
      applyDecided_away_gt s h a hsc asc hne hgt]
    simp [winInc, lossInc, tieInc, gameInc, addOpp]
  · intro hlt
    rw [applyDecided_home_lt s h a hsc asc hne hlt,
      applyDecided_away_lt s h a hsc asc hne hlt]
    simp [winInc, lossInc, tieInc, gameInc, addOpp]
  · intro heq
    rw [applyDecided_home_eq s h a hsc asc hne heq,
      applyDecided_away_eq s h a hsc asc hne heq]
    simp [winInc, lossInc, tieInc, gameInc, addOpp]

theorem C4_witness :
    ((applyGame (fun _ => initRec) ⟨1, "A", "B", some 3, some 1, Status.Final⟩)
      "A").wins = ((fun _ : String => initRec) "A").wins + 1 ∧
    ((applyGame (fun _ => initRec) ⟨1, "A", "B", some 3, some 1, Status.Final⟩)
      "A").opponents = ((fun _ : String => initRec) "A").opponents ++ ["B"] :=
  ⟨((C4_decided_game (fun _ => initRec) 1 "A" "B" 3 1 Status.Final
      (by decide)).2.1 (by norm_num)).1,
    ((C4_decided_game (fun _ => initRec) 1 "A" "B" 3 1 Status.Final
      (by decide)).1).1⟩

/-- C1 as stated is false of the code: an undecided game whose pick is
absent (the `"TBD"` default, the untouched/unresolved state) is NOT
excluded — the resolver fabricates a 20-20 Simulated outcome for it,
and the game is aggregated as a tie for both teams. -/
theorem C1_counterexample :
    isScheduled unresolvedRaw = true ∧
    getPick [] unresolvedRaw.game_id = "TBD" ∧
    full_season [] [unresolvedRaw] =
      [⟨5, "A", "B", some 20, some 20, Status.Simulated⟩] ∧
    calculate_stats (full_season [] [unresolvedRaw]) "A" =
      ⟨0, 0, 1, 1, ["B"]⟩ ∧
    calculate_stats (full_season [] [unresolvedRaw]) "B" =
      ⟨0, 0, 1, 1, ["A"]⟩ ∧
    ¬ (calculate_stats (full_season [] [unresolvedRaw]) "A").games = 0 := by
  decide

/-- C1 amended: an undecided game whose pick is neither Home nor Away
(the Tie pick, or the untouched TBD/unresolved default) is resolved to
a Simulated 20-20 tie and is included in aggregation: it adds one
game_played and one tie to each team and each team to the other team's
opponent list. -/
theorem C1_unresolved_as_tie (picks : List (String × String)) (g : RawGame)
    (hsch : isScheduled g = true)
    (hH : getPick picks g.game_id ≠ "Home")
    (hA : getPick picks g.game_id ≠ "Away")
    (hne : g.home_team ≠ g.away_team) :
    simulate picks g =
      ⟨g.week, g.home_team, g.away_team, some 20, some 20, Status.Simulated⟩ ∧
    ∀ s : String → TeamRecord,
      ((applyGame s (simulate picks g)) g.home_team).ties =
        (s g.home_team).ties + 1 ∧
      ((applyGame s (simulate picks g)) g.away_team).ties =
        (s g.away_team).ties + 1 ∧
      ((applyGame s (simulate picks g)) g.home_team).games =
        (s g.home_team).games + 1 ∧
      ((applyGame s (simulate picks g)) g.away_team).games =
        (s g.away_team).games + 1 ∧
      ((applyGame s (simulate picks g)) g.home_team).opponents =
        (s g.home_team).opponents ++ [g.away_team] ∧
      ((applyGame s (simulate picks g)) g.away_team).opponents =
        (s g.away_team).opponents ++ [g.home_team] := by
  have hres : resolveScores (getPick picks g.game_id) = (20, 20) := by
    unfold resolveScores
    rw [if_neg hH, if_neg hA]
  have hsim : simulate picks g =
      ⟨g.week, g.home_team, g.away_team, some 20, some 20, Status.Simulated⟩ := by
    simp [simulate, hres]
  refine ⟨hsim, fun s => ?_⟩
  rw [hsim]
  have e : applyGame s
      ⟨g.week, g.home_team, g.away_team, some 20, some 20, Status.Simulated⟩ =
      applyDecided s g.home_team g.away_team 20 20 := rfl
  rw [e, applyDecided_home_eq _ _ _ _ _ hne rfl,
    applyDecided_away_eq _ _ _ _ _ hne rfl]
  simp [tieInc, gameInc, addOpp]

theorem C1_witness :
    simulate [] unresolvedRaw = ⟨5, "A", "B", some 20, some 20, Status.Simulated⟩ :=
  (C1_unresolved_as_tie [] unresolvedRaw (by decide) (by decide) (by decide)
    (by decide)).1

/-- C3: the 3-team scenario — records, win percentages, SOS values and
the resulting draft order rank 1 = B, rank 2 = A, rank 3 = C. -/
theorem C3_scenario :
    calculate_stats scenarioGames "A" = ⟨1, 1, 0, 2, ["B", "C"]⟩ ∧
    calculate_stats scenarioGames "B" = ⟨0, 1, 1, 2, ["A", "C"]⟩ ∧
    calculate_stats scenarioGames "C" = ⟨1, 0, 1, 2, ["B", "A"]⟩ ∧
    win_pct (calculate_stats scenarioGames "A") = 1 / 2 ∧
    win_pct (calculate_stats scenarioGames "B") = 1 / 4 ∧
    win_pct (calculate_stats scenarioGames "C") = 3 / 4 ∧
    sosOf scenarioGames "A" = 1 / 2 ∧
    sosOf scenarioGames "B" = 5 / 8 ∧
    sosOf scenarioGames "C" = 3 / 8 ∧
    pipeline scenarioGames =
      [⟨1, "B", 1 / 4, 5 / 8⟩, ⟨2, "A", 1 / 2, 1 / 2⟩, ⟨3, "C", 3 / 4, 3 / 8⟩] := by
  have hA : calculate_stats scenarioGames "A" = ⟨1, 1, 0, 2, ["B", "C"]⟩ := by
    decide
  have hB : calculate_stats scenarioGames "B" = ⟨0, 1, 1, 2, ["A", "C"]⟩ := by
    decide
  have hC : calculate_stats scenarioGames "C" = ⟨1, 0, 1, 2, ["B", "A"]⟩ := by
    decide
  have hwA : win_pct (calculate_stats scenarioGames "A") = 1 / 2 := by
    rw [hA]; norm_num [win_pct]
  have hwB : win_pct (calculate_stats scenarioGames "B") = 1 / 4 := by
    rw [hB]; norm_num [win_pct]
  have hwC : win_pct (calculate_stats scenarioGames "C") = 3 / 4 := by
    rw [hC]; norm_num [win_pct]
  have hsA : sosOf scenarioGames "A" = 1 / 2 := by
    rw [sosOf_eval scenarioGames "A" 1 1 2 (by decide) (by decide) (by decide)]
    norm_num
  have hsB : sosOf scenarioGames "B" = 5 / 8 := by
    rw [sosOf_eval scenarioGames "B" 2 1 1 (by decide) (by decide) (by decide)]
    norm_num
  have hsC : sosOf scenarioGames "C" = 3 / 8 := by
    rw [sosOf_eval scenarioGames "C" 1 2 1 (by decide) (by decide) (by decide)]
    norm_num
  have hteams : allTeams scenarioGames = ["A", "B", "C"] := by decide
  have hst : standings scenarioGames =
      [⟨"A", 1, 1, 0, 1 / 2, 1 / 2⟩, ⟨"B", 0, 1, 1, 1 / 4, 5 / 8⟩,
        ⟨"C", 1, 0, 1, 3 / 4, 3 / 8⟩] := by
    unfold standings
    rw [hteams]
    simp only [List.map_cons, List.map_nil, hA, hB, hC, hwA, hwB, hwC,
      hsA, hsB, hsC]
    norm_num [win_pct]
  have hpipe : pipeline scenarioGames =
      [⟨1, "B", 1 / 4, 5 / 8⟩, ⟨2, "A", 1 / 2, 1 / 2⟩, ⟨3, "C", 3 / 4, 3 / 8⟩] := by
    rw [pipeline, hst]
    norm_num [draft_order, List.insertionSort, List.orderedInsert, rankLE,
      attachRanks]
  exact ⟨hA, hB, hC, hwA, hwB, hwC, hsA, hsB, hsC, hpipe⟩
